import Mathlib

/-!
Verification development for the Universal Classifier document-processing
pipeline (`src/services/vision_service.py`, `src/services/aggregator.py`,
`src/config/settings.py`, `src/models/schemas.py`, `src/utils/tracking.py`).

Python strings are modelled as `List Char`, Python floats as `ℚ`, JSON
values as the inductive `Json`.  Fallible Python expressions (subscripts,
attribute access) are modelled in `Option`, where `none` means an exception
propagates to the nearest enclosing handler.
-/

namespace UC

/-- `models/schemas.py` `ErrorCategory`: FILE_FORMAT, API_FAILURE,
PARSING_ERROR, SYSTEM_ERROR. -/
inductive ErrorCategory
| fileFormat
| apiFailure
| parsingError
| systemError
deriving DecidableEq, Repr

/-- `models/schemas.py` `ProcessingStatus`: SUCCESS ("success"),
PARTIAL ("partial"), FAILED ("failed"). -/
inductive ProcessingStatus
| success
| partialStatus
| failed
deriving DecidableEq, Repr

/-- `models/schemas.py` `DocumentType`: PDF, IMAGE, ZIP. -/
inductive DocumentType
| pdf
| image
| zip
deriving DecidableEq, Repr

/-- `models/schemas.py` `ProcessingError` (the `timestamp` field, a wall
clock read, is omitted: no claim mentions it). -/
structure ProcessingError where
  page_number : Option Int
  error_category : ErrorCategory
  error_message : List Char
  retry_suggestion : Option (List Char)
deriving DecidableEq, Repr

/-- A JSON value, as produced by Python's `json.loads` and passed around
as plain dicts/lists/strings/numbers in the source. -/
inductive Json
| null
| bool (b : Bool)
| num (q : ℚ)
| str (s : List Char)
| arr (elems : List Json)
| obj (fields : List (List Char × Json))

/-- Whether a decoded JSON value equals the Python string `k`
(Python `==` between a string and an arbitrary value). -/
def jsonEqStr (x : Json) (k : List Char) : Bool :=
  match x with
  | Json.str s => s == k
  | _ => false

/-- Whether `needle` occurs as a contiguous substring of `hay`
(Python `needle in hay` on strings). -/
def isSubstring (needle : List Char) : List Char → Bool
| [] => needle.isEmpty
| c :: rest => needle.isPrefixOf (c :: rest) || isSubstring needle rest

/-- Python whitespace characters recognised by `str.strip()`. -/
def pyWhitespaceChar (c : Char) : Bool :=
  c == ' ' || c == '\t' || c == '\n' || c == '\r' || c == '\x0b' || c == '\x0c'

/-- Python `s.strip()`: drop whitespace from both ends. -/
def pyStrip (s : List Char) : List Char :=
  ((s.dropWhile pyWhitespaceChar).reverse.dropWhile pyWhitespaceChar).reverse

/-- Python `s.startswith(p)`. -/
def pyStartsWith (s p : List Char) : Bool :=
  p.isPrefixOf s

/-- Python `s.endswith(p)`. -/
def pyEndsWith (s p : List Char) : Bool :=
  p.reverse.isPrefixOf s.reverse

/-- Python `s[:-n]` for `0 < n ≤ len s`: drop the last `n` characters. -/
def dropLastN (s : List Char) (n : Nat) : List Char :=
  (s.reverse.drop n).reverse

/-- Python `'\n'.join(lines)`. -/
def joinNewline : List (List Char) → List Char
| [] => []
| [l] => l
| l :: ls => l ++ '\n' :: joinNewline ls

/-- Python dict lookup on an association list built by `json.loads`
(`d[k]`), `none` when the key is absent. -/
def jsonLookup (fields : List (List Char × Json)) (k : List Char) : Option Json :=
  match fields.find? (fun kv => kv.1 == k) with
  | some kv => some kv.2
  | none => none

/-- Python `k in x` for a decoded JSON value `x`: key test on a dict,
substring test on a string, membership on a list; a `TypeError`
(modelled as `none`) on numbers, booleans and `None`. -/
def pyContains (x : Json) (k : List Char) : Option Bool :=
  match x with
  | Json.obj fields => some (jsonLookup fields k).isSome
  | Json.str s => some (isSubstring k s)
  | Json.arr elems => some (elems.any (fun e => jsonEqStr e k))
  | _ => none

/-- Python `x[k]` for a decoded JSON value `x` and string key `k`:
only dicts support string subscripts; everything else raises. -/
def pySubscript (x : Json) (k : List Char) : Option Json :=
  match x with
  | Json.obj fields => jsonLookup fields k
  | _ => none

/-- Python `x.get(k, default)`: only dicts have `.get`; on any other
value an `AttributeError` (modelled as `none`) is raised. -/
def pyDictGet (x : Json) (k : List Char) (default : Json) : Option Json :=
  match x with
  | Json.obj fields =>
      match jsonLookup fields k with
      | some v => some v
      | none => some default
  | _ => none

/-- Python `isinstance(x, list)` on a decoded JSON value. -/
def isJsonList (x : Json) : Bool :=
  match x with
  | Json.arr _ => true
  | _ => false

/-- `vision_service.py` lines 420-436: strip one markdown code fence from
the response content before JSON parsing. -/
def cleanContent (content : List Char) : List Char :=
  let cleaned := pyStrip content
  if pyStartsWith cleaned ("```json".toList) then
    let c1 := cleaned.drop 7
    let c2 := if pyEndsWith c1 ("```".toList) then dropLastN c1 3 else c1
    pyStrip c2
  else if pyStartsWith cleaned ("```".toList) then
    let lines := cleaned.splitOn '\n'
    let c1 :=
      if pyStrip (lines.headD []) == ("```".toList) &&
         pyStrip (lines.getLastD []) == ("```".toList) then
        joinNewline ((lines.drop 1).dropLast)
      else if pyStrip (lines.getLastD []) == ("```".toList) then
        let c0 := joinNewline lines.dropLast
        if pyStartsWith c0 ("```".toList) then c0.drop 3 else c0
      else cleaned
    pyStrip c1
  else cleaned

/-- The single-document canonical envelope literal built at
`vision_service.py` lines 449-459, 465-475 and 479-489: fixed
`document_id`/`file_name`/`document_class`/`entities` fields with the
given `tables`, `text_content` and `overall_confidence`. -/
def canonicalEnvelope (tables : Json) (textContent : Json) (confidence : ℚ) : Json :=
  Json.obj [("documents".toList,
    Json.arr [Json.obj [
      ("document_id".toList, Json.null),
      ("file_name".toList, Json.str "unknown".toList),
      ("document_class".toList, Json.str "OTHER".toList),
      ("entities".toList, Json.obj []),
      ("tables".toList, tables),
      ("text_content".toList, textContent),
      ("overall_confidence".toList, Json.num confidence)]])]

/-- `api_response['choices'][0]['message']['content']`
(`vision_service.py` line 417); `none` when any subscript fails or the
final value is not a string (so `.strip()` would raise). -/
def extractResponseContent (apiResponse : Json) : Option (List Char) :=
  match pySubscript apiResponse "choices".toList with
  | some (Json.arr (first :: _)) =>
      match pySubscript first "message".toList with
      | some msg =>
          match pySubscript msg "content".toList with
          | some (Json.str s) => some s
          | _ => none
      | none => none
  | _ => none

/-- Body of the `try` block of `_parse_vision_response`
(`vision_service.py` lines 415-475), given the extracted content string;
`jsonLoads` models Python's `json.loads` (`none` = `JSONDecodeError`).
The result is `none` exactly when a non-`JSONDecodeError` exception
escapes to the outer `except` handler. -/
def parseFromContent (jsonLoads : List Char → Option Json) (content : List Char) :
    Option Json :=
  let cleaned := cleanContent content
  match jsonLoads cleaned with
  | some extracted =>
      match pyContains extracted "documents".toList with
      | none => none
      | some hasDocs =>
          if hasDocs then
            match pySubscript extracted "documents".toList with
            | none => none
            | some docs =>
                if isJsonList docs then
                  some extracted
                else
                  match pyDictGet extracted "tables".toList (Json.arr []) with
                  | none => none
                  | some tables =>
                      match pyDictGet extracted "text_content".toList (Json.str content) with
                      | none => none
                      | some text => some (canonicalEnvelope tables text (1/2))
          else
            match pyDictGet extracted "tables".toList (Json.arr []) with
            | none => none
            | some tables =>
                match pyDictGet extracted "text_content".toList (Json.str content) with
                | none => none
                | some text => some (canonicalEnvelope tables text (1/2))
  | none =>
      some (canonicalEnvelope (Json.arr []) (Json.str content) (1/10))

/-- `_parse_vision_response` (`vision_service.py` lines 413-489): extract
the message content, strip fences, parse; any exception inside the `try`
is absorbed by the outer `except` into the confidence-0 envelope. -/
def parseVisionResponse (jsonLoads : List Char → Option Json) (apiResponse : Json) :
    Json :=
  match extractResponseContent apiResponse with
  | some content =>
      match parseFromContent jsonLoads content with
      | some result => result
      | none =>
          canonicalEnvelope (Json.arr []) (Json.str "Failed to parse response".toList) 0
  | none =>
      canonicalEnvelope (Json.arr []) (Json.str "Failed to parse response".toList) 0

/-- A page descriptor consumed by `VisionService.process_images`: the
`.get(...)` accesses in the source make every key optional. -/
structure PageData where
  page_id : Option (List Char)
  page_number : Option Int
  image_path : Option (List Char)
deriving DecidableEq, Repr

/-- The per-page result dict built by `_process_single_image`,
`_create_error_result` and the exception handler of `process_images`. -/
structure PageResult where
  page_id : Option (List Char)
  page_number : Option Int
  success : Bool
  error : Option ProcessingError
  extracted_content : Option Json
  raw_response : Option Json
  processing_time : ℚ
  api_cost : ℚ

/-- `utils/tracking.py` `estimate_openai_cost`: per-image cost table with
a 0.01 default, multiplied by the image count. -/
def estimateOpenaiCost (model : List Char) (imageCount : ℚ) : ℚ :=
  let baseCost : ℚ :=
    if model == "gpt-4-vision-preview".toList then 1/100
    else if model == "gpt-4o".toList then 75/10000
    else if model == "gpt-4o-mini".toList then 25/100000
    else 1/100
  baseCost * imageCount

/-- The configuration read by `VisionService.__init__` from
`config/settings.py` (max retries, base retry delay, model name,
whether `settings.environment == 'development'`). -/
structure VisionConfig where
  maxRetries : Nat
  retryDelay : ℚ
  model : List Char
  isDevelopment : Bool

/-- The environment's reaction to one iteration of the retry loop of
`_process_single_image`: the rate-limit tracker refuses
(`can_make_request()` false), the image fails to encode, the HTTP call
returns a status with a (decoded) JSON body and raw text, the call times
out, or some other exception is raised. -/
inductive AttemptEvent
| trackerBlocked
| encodeFail
| httpResp (status : Nat) (body : Json) (text : List Char)
| timeout
| unexpected (msg : List Char)

/-- `_create_error_result` (`vision_service.py` lines 491-509). -/
def createErrorResult (page_id : Option (List Char)) (page_number : Option Int)
    (cat : ErrorCategory) (msg : List Char) (t : ℚ)
    (suggestion : Option (List Char)) : PageResult :=
  { page_id := page_id
    page_number := page_number
    success := false
    error := some { page_number := page_number, error_category := cat,
                    error_message := msg, retry_suggestion := suggestion }
    extracted_content := none
    raw_response := none
    processing_time := t
    api_cost := 0 }

/-- The successful-response result dict (`vision_service.py` lines
200-209). -/
def successResult (cfg : VisionConfig) (jsonLoads : List Char → Option Json)
    (page : PageData) (body : Json) (t : ℚ) : PageResult :=
  { page_id := page.page_id
    page_number := page.page_number
    success := true
    error := none
    extracted_content := some (parseVisionResponse jsonLoads body)
    raw_response := if cfg.isDevelopment then some body else none
    processing_time := t
    api_cost := estimateOpenaiCost cfg.model 1 }

/-- What one iteration of the retry loop decides to do: return a
terminal result, sleep `retry_delay × 2^attempt` and retry, or retry
without a backoff sleep (the rate-limit-tracker `continue`). -/
inductive AttemptStep
| finish (r : PageResult)
| retryWait (w : ℚ)
| retryNoWait

/-- The body of one iteration of the `for attempt in
range(self.max_retries + 1)` loop of `_process_single_image`
(`vision_service.py` lines 158-288), classified by its control flow. -/
def classifyAttempt (cfg : VisionConfig) (jsonLoads : List Char → Option Json)
    (elapsed : Nat → ℚ) (page : PageData) (attempt : Nat) :
    AttemptEvent → AttemptStep
| AttemptEvent.trackerBlocked => AttemptStep.retryNoWait
| AttemptEvent.encodeFail =>
    AttemptStep.finish (createErrorResult page.page_id page.page_number
      ErrorCategory.systemError "Failed to encode image".toList (elapsed attempt) none)
| AttemptEvent.httpResp status body text =>
    if status == 200 then
      AttemptStep.finish (successResult cfg jsonLoads page body (elapsed attempt))
    else if status == 429 then
      AttemptStep.retryWait (cfg.retryDelay * 2 ^ attempt)
    else if status == 400 then
      AttemptStep.finish (createErrorResult page.page_id page.page_number
        ErrorCategory.apiFailure ("Bad request: ".toList ++ text) (elapsed attempt)
        (some "Check image format and size".toList))
    else
      if attempt < cfg.maxRetries then
        AttemptStep.retryWait (cfg.retryDelay * 2 ^ attempt)
      else
        let errorMsg :=
          if status == 502 then
            "OpenAI API server error (502 Bad Gateway): ".toList ++ text
          else if status == 503 then
            "OpenAI API service unavailable (503): ".toList ++ text
          else
            "API error ".toList ++ (toString status).toList ++ ": ".toList ++ text
        let suggestion :=
          if status == 502 then
            "OpenAI servers are experiencing issues, try again in a few minutes".toList
          else if status == 503 then
            "OpenAI service is temporarily unavailable, try again later".toList
          else
            "Try again later or contact support".toList
        AttemptStep.finish (createErrorResult page.page_id page.page_number
          ErrorCategory.apiFailure errorMsg (elapsed attempt) (some suggestion))
| AttemptEvent.timeout =>
    if attempt < cfg.maxRetries then
      AttemptStep.retryWait (cfg.retryDelay * 2 ^ attempt)
    else
      AttemptStep.finish (createErrorResult page.page_id page.page_number
        ErrorCategory.apiFailure "API request timeout".toList (elapsed attempt)
        (some "Try again with better network connection".toList))
| AttemptEvent.unexpected msg =>
    if attempt < cfg.maxRetries then
      AttemptStep.retryWait (cfg.retryDelay * 2 ^ attempt)
    else
      AttemptStep.finish (createErrorResult page.page_id page.page_number
        ErrorCategory.systemError ("Unexpected error: ".toList ++ msg)
        (elapsed attempt) none)

/-- The retry loop of `_process_single_image` (`vision_service.py` lines
157-297).  `fuel` is the number of loop iterations left
(`range(max_retries + 1)` minus those already consumed), `attempt` the
current index, `elapsed a` models `time.time() - start_time` at the point
attempt `a` returns.  Returns the result, the number of loop iterations
consumed, and the recorded backoff sleeps as (attempt, seconds) pairs. -/
def runAttempts (cfg : VisionConfig) (jsonLoads : List Char → Option Json)
    (elapsed : Nat → ℚ) (page : PageData) (env : Nat → AttemptEvent) :
    Nat → Nat → PageResult × Nat × List (Nat × ℚ)
| 0, attempt =>
    (createErrorResult page.page_id page.page_number ErrorCategory.apiFailure
      "All retry attempts failed".toList (elapsed attempt)
      (some "Try again later".toList), 0, [])
| fuel + 1, attempt =>
    match classifyAttempt cfg jsonLoads elapsed page attempt (env attempt) with
    | AttemptStep.finish r => (r, 1, [])
    | AttemptStep.retryWait w =>
        let rest := runAttempts cfg jsonLoads elapsed page env fuel (attempt + 1)
        (rest.1, rest.2.1 + 1, (attempt, w) :: rest.2.2)
    | AttemptStep.retryNoWait =>
        let rest := runAttempts cfg jsonLoads elapsed page env fuel (attempt + 1)
        (rest.1, rest.2.1 + 1, rest.2.2)

/-- `_process_single_image`: run the retry loop from attempt 0 with
`max_retries + 1` iterations available. -/
def processSingleImage (cfg : VisionConfig) (jsonLoads : List Char → Option Json)
    (elapsed : Nat → ℚ) (page : PageData) (env : Nat → AttemptEvent) :
    PageResult × Nat × List (Nat × ℚ) :=
  runAttempts cfg jsonLoads elapsed page env (cfg.maxRetries + 1) 0

/-- `VisionService.__init__`: `max_tokens_per_minute = 125000`. -/
def maxTokensPerMinute : ℚ := 125000

/-- The fixed conservative token estimate (1000) used in
`_wait_for_capacity` and `_update_capacity_after_request`. -/
def estimatedTokensPerRequest : ℚ := 1000

/-- The mutable capacity fields of `VisionService`. -/
structure CapacityState where
  available_request_capacity : ℚ
  available_token_capacity : ℚ
  last_update_time : ℚ
deriving DecidableEq, Repr

/-- `_update_available_capacity` (`vision_service.py` lines 126-141):
leaky-bucket refill capped at the configured maxima. -/
def updateAvailableCapacity (maxRequestsPerMinute : ℚ) (now : ℚ)
    (s : CapacityState) : CapacityState :=
  let secondsSinceUpdate := now - s.last_update_time
  { available_request_capacity :=
      min (s.available_request_capacity + maxRequestsPerMinute * secondsSinceUpdate / 60)
        maxRequestsPerMinute
    available_token_capacity :=
      min (s.available_token_capacity + maxTokensPerMinute * secondsSinceUpdate / 60)
        maxTokensPerMinute
    last_update_time := now }

/-- `_update_capacity_after_request` (`vision_service.py` lines 143-147):
debit one request and the fixed token estimate. -/
def updateCapacityAfterRequest (s : CapacityState) : CapacityState :=
  { s with
    available_request_capacity := s.available_request_capacity - 1
    available_token_capacity := s.available_token_capacity - estimatedTokensPerRequest }

/-- The admission test of `_wait_for_capacity` (`vision_service.py`
lines 111-112). -/
def hasSufficientCapacity (s : CapacityState) : Bool :=
  decide (1 ≤ s.available_request_capacity) &&
  decide (estimatedTokensPerRequest ≤ s.available_token_capacity)

/-- `_wait_for_capacity` (`vision_service.py` lines 102-124): repeatedly
refill then test; `checkTimes` are the clock values at successive loop
iterations (the sleeps between them, including the post-429 cooldown
pause, only shape this list).  `none` models blocking forever within the
supplied schedule. -/
def waitForCapacity (maxRequestsPerMinute : ℚ) :
    List ℚ → CapacityState → Option CapacityState
| [], _ => none
| t :: ts, s =>
    let s1 := updateAvailableCapacity maxRequestsPerMinute t s
    if hasSufficientCapacity s1 then some s1
    else waitForCapacity maxRequestsPerMinute ts s1

/-- `process_with_rate_limiting` (`vision_service.py` lines 55-69), the
body under the semaphore: wait for capacity once, run the full retry
sequence of `_process_single_image` (which never touches the capacity
counters), then debit the capacity once. -/
def processWithRateLimiting (cfg : VisionConfig) (maxRequestsPerMinute : ℚ)
    (jsonLoads : List Char → Option Json) (elapsed : Nat → ℚ)
    (checkTimes : List ℚ) (page : PageData) (env : Nat → AttemptEvent)
    (s : CapacityState) :
    Option (PageResult × Nat × List (Nat × ℚ) × CapacityState) :=
  match waitForCapacity maxRequestsPerMinute checkTimes s with
  | none => none
  | some admitted =>
      let r := processSingleImage cfg jsonLoads elapsed page env
      some (r.1, r.2.1, r.2.2, updateCapacityAfterRequest admitted)

/-- The performance block of `config/settings.py` (line 31):
`concurrent_requests` is configurable with default 5. -/
structure PerformanceSettings where
  concurrent_requests : Nat
deriving DecidableEq, Repr

/-- `settings.py` default: `concurrent_requests = 5`. -/
def defaultPerformanceSettings : PerformanceSettings :=
  { concurrent_requests := 5 }

/-- `process_images` line 52: `max_concurrent = min(3, len(pages))` —
the semaphore size (the hard-coded constant 3, not a settings value). -/
def maxConcurrent (pages : List PageData) : Nat :=
  min 3 pages.length

/-- State of the `asyncio.Semaphore` of `process_images` together with
the number of page tasks currently inside its `async with` block. -/
structure GateState where
  permits : Nat
  inFlight : Nat
deriving DecidableEq, Repr

/-- Semaphore discipline of `process_with_rate_limiting`: entering the
`async with` consumes a permit (blocking when none is free), leaving
releases it. -/
inductive GateStep : GateState → GateState → Prop
| acquire (p f : Nat) : GateStep ⟨p + 1, f⟩ ⟨p, f + 1⟩
| release (p f : Nat) : GateStep ⟨p, f + 1⟩ ⟨p + 1, f⟩

/-- States reachable from the freshly created `asyncio.Semaphore(k)`
with no task in flight. -/
inductive GateReachable (k : Nat) : GateState → Prop
| init : GateReachable k ⟨k, 0⟩
| step {s t : GateState} : GateReachable k s → GateStep s t → GateReachable k t

/-- How the i-th page task of `asyncio.gather(*tasks,
return_exceptions=True)` terminates: either an exception escapes the
task, or it completes with the result of its retry sequence
(`process_with_rate_limiting` returns `_process_single_image`'s result
unchanged; the capacity gating only delays it). -/
inductive TaskEnv
| raises (msg : List Char)
| completes (env : Nat → AttemptEvent) (elapsed : Nat → ℚ)

/-- The substitute result built by `process_images` (lines 82-96) when
`gather` hands back an exception for a page. -/
def gatherExceptionResult (page : PageData) (msg : List Char) : PageResult :=
  { page_id := page.page_id
    page_number := page.page_number
    success := false
    error := some { page_number := page.page_number
                    error_category := ErrorCategory.systemError
                    error_message := "Processing failed: ".toList ++ msg
                    retry_suggestion := some "Try again or contact support".toList }
    extracted_content := none
    raw_response := none
    processing_time := 0
    api_cost := 0 }

/-- The per-index result assembly of `process_images` lines 78-98. -/
def processImagesGo (cfg : VisionConfig) (jsonLoads : List Char → Option Json)
    (taskEnv : Nat → TaskEnv) : Nat → List PageData → List PageResult
| _, [] => []
| i, page :: rest =>
    (match taskEnv i with
     | TaskEnv.raises msg => gatherExceptionResult page msg
     | TaskEnv.completes env elapsed =>
         (processSingleImage cfg jsonLoads elapsed page env).1) ::
    processImagesGo cfg jsonLoads taskEnv (i + 1) rest

/-- `process_images` (`vision_service.py` lines 47-100): one result per
page, in page order, with exceptions converted to error results. -/
def processImages (cfg : VisionConfig) (jsonLoads : List Char → Option Json)
    (pages : List PageData) (taskEnv : Nat → TaskEnv) : List PageResult :=
  processImagesGo cfg jsonLoads taskEnv 0 pages

/-- A `file_info` object as consumed by the aggregator (only `filename`
is read there). -/
structure FileInfo where
  filename : List Char
deriving DecidableEq, Repr

/-- One entry of `processed_files` as built by `file_processor.py`
(keys `file_info`, `document_type` — possibly `None` —, `pages`,
`errors`). -/
structure FileResult where
  file_info : FileInfo
  document_type : Option DocumentType
  pages : List PageData
  errors : List ProcessingError

/-- `models/schemas.py` `PageMetadata` (without the wall-clock
`processing_timestamp`). -/
structure PageMetadata where
  page_number : Int
  image_id : List Char
  api_cost : Option ℚ
  processing_time : ℚ

/-- `models/schemas.py` `ExtractedData`. -/
structure ExtractedData where
  page_metadata : PageMetadata
  extracted_content : Json
  raw_response : Option Json

/-- `models/schemas.py` `ProcessedDocument`. -/
structure ProcessedDocument where
  filename : List Char
  document_type : Option DocumentType
  page_count : Nat
  processing_status : ProcessingStatus
  extracted_data : List ExtractedData
  errors : List ProcessingError
  processing_time : ℚ

/-- `models/schemas.py` `ProcessingSummary`. -/
structure ProcessingSummary where
  total_processing_time : ℚ
  api_calls_made : Nat
  estimated_cost : ℚ
  success_rate : ℚ

/-- `models/schemas.py` `ProcessDocumentsResponse`. -/
structure ProcessDocumentsResponse where
  success : Bool
  processing_id : List Char
  total_documents : Nat
  total_pages : Nat
  processed_documents : List ProcessedDocument
  summary : ProcessingSummary

/-- The dict comprehension of `aggregate_results` lines 41-45 followed
by `.get(page_id)`: keep results with a truthy (non-empty) `page_id`,
later entries overwriting earlier ones. -/
def visionMapLookup (visionResults : List PageResult) (pid : List Char) :
    Option PageResult :=
  ((visionResults.filter fun r =>
      match r.page_id with
      | some s => !s.isEmpty
      | none => false).reverse).find? fun r => r.page_id == some pid

/-- Python `None` stored in a result dict field, seen as a JSON value. -/
def optJson (o : Option Json) : Json :=
  match o with
  | some j => j
  | none => Json.null

/-- The empty-documents fallback content of `_process_file_result`
lines 142-148. -/
def emptyDocumentsContent : Json :=
  Json.obj [
    ("document_class".toList, Json.str "OTHER".toList),
    ("entities".toList, Json.obj []),
    ("tables".toList, Json.arr []),
    ("text_content".toList, Json.str []),
    ("overall_confidence".toList, Json.num 0)]

/-- The extracted-content transformation of `_process_file_result`
lines 122-151; `none` models an exception escaping the aggregator. -/
def transformExtractedContent (extractedContent : Json) : Option Json :=
  match pyContains extractedContent "documents".toList with
  | none => none
  | some hasDocs =>
      if hasDocs then
        match pySubscript extractedContent "documents".toList with
        | none => none
        | some docs =>
            match docs with
            | Json.arr (documentData :: _) => do
                let documentClass ← pyDictGet documentData "document_class".toList
                  (Json.str "OTHER".toList)
                let entities ← pyDictGet documentData "entities".toList (Json.obj [])
                let tables ← pyDictGet documentData "tables".toList (Json.arr [])
                let textContent ← pyDictGet documentData "text_content".toList (Json.str [])
                let overallConfidence ← pyDictGet documentData "overall_confidence".toList
                  (Json.num 0)
                let documentId ← pyDictGet documentData "document_id".toList Json.null
                let fileName ← pyDictGet documentData "file_name".toList
                  (Json.str "unknown".toList)
                some (Json.obj [
                  ("document_class".toList, documentClass),
                  ("entities".toList, entities),
                  ("tables".toList, tables),
                  ("text_content".toList, textContent),
                  ("overall_confidence".toList, overallConfidence),
                  ("document_id".toList, documentId),
                  ("file_name".toList, fileName)])
            | Json.arr [] => some emptyDocumentsContent
            | _ => some extractedContent
      else
        some extractedContent

/-- The per-page loop of `_process_file_result` (lines 104-174),
returning the accumulated extracted data, page-level errors,
successful-page count and summed processing time; `none` models an
exception escaping the aggregator (e.g. a page dict missing a key). -/
def processPages (visionResults : List PageResult) (includeRaw : Bool) :
    List PageData → Option (List ExtractedData × List ProcessingError × Nat × ℚ)
| [] => some ([], [], 0, 0)
| page :: rest => do
    let pid ← page.page_id
    let pnum ← page.page_number
    let restRes ← processPages visionResults includeRaw rest
    match visionMapLookup visionResults pid with
    | some vr =>
        if vr.success then do
          let md : PageMetadata :=
            { page_number := pnum, image_id := pid,
              api_cost := some vr.api_cost, processing_time := vr.processing_time }
          let content ← transformExtractedContent (optJson vr.extracted_content)
          let ed : ExtractedData :=
            { page_metadata := md, extracted_content := content,
              raw_response := if includeRaw then vr.raw_response else none }
          some (ed :: restRes.1, restRes.2.1, restRes.2.2.1 + 1,
            vr.processing_time + restRes.2.2.2)
        else
          some (restRes.1,
            (match vr.error with
             | some e => e :: restRes.2.1
             | none => restRes.2.1),
            restRes.2.2.1, vr.processing_time + restRes.2.2.2)
    | none => some restRes

/-- `_process_file_result` (`aggregator.py` lines 85-193). -/
def processFileResult (fr : FileResult) (visionResults : List PageResult)
    (includeRaw : Bool) : Option ProcessedDocument := do
  let pageRes ← processPages visionResults includeRaw fr.pages
  let documentErrors := fr.errors ++ pageRes.2.1
  let successfulPages := pageRes.2.2.1
  let totalPages := fr.pages.length
  let status :=
    if successfulPages == 0 then ProcessingStatus.failed
    else if successfulPages == totalPages && documentErrors.isEmpty then
      ProcessingStatus.success
    else ProcessingStatus.partialStatus
  some { filename := fr.file_info.filename
         document_type := fr.document_type
         page_count := totalPages
         processing_status := status
         extracted_data := pageRes.1
         errors := documentErrors
         processing_time := pageRes.2.2.2 }

/-- The inner loop of `_calculate_summary` over one document's
`extracted_data` (lines 206-209): count API calls and sum
`api_cost or 0.0`. -/
def documentCallsAndCost : List ExtractedData → Nat × ℚ
| [] => (0, 0)
| e :: es =>
    let r := documentCallsAndCost es
    (r.1 + 1, (e.page_metadata.api_cost.getD 0) + r.2)

/-- The outer loop of `_calculate_summary` over all documents. -/
def totalCallsAndCost : List ProcessedDocument → Nat × ℚ
| [] => (0, 0)
| d :: ds =>
    let a := documentCallsAndCost d.extracted_data
    let r := totalCallsAndCost ds
    (a.1 + r.1, a.2 + r.2)

/-- `_calculate_summary` (`aggregator.py` lines 195-224). -/
def calculateSummary (metricsDuration : ℚ) (docs : List ProcessedDocument) :
    ProcessingSummary :=
  let counts := totalCallsAndCost docs
  let totalPages : Nat := (docs.map (fun d => d.page_count)).sum
  let successfulPages : Nat := (docs.map (fun d => d.extracted_data.length)).sum
  let successRate : ℚ :=
    if 0 < totalPages then (successfulPages : ℚ) / (totalPages : ℚ) * 100 else 0
  { total_processing_time := metricsDuration
    api_calls_made := counts.1
    estimated_cost := counts.2
    success_rate := successRate }

/-- `_determine_overall_success` (`aggregator.py` lines 226-237). -/
def determineOverallSuccess (docs : List ProcessedDocument) : Bool :=
  if docs.isEmpty then false
  else docs.any fun d =>
    decide (d.processing_status = ProcessingStatus.success ∨
      d.processing_status = ProcessingStatus.partialStatus)

/-- `aggregate_results` (`aggregator.py` lines 27-79); `metricsDuration`
models `metrics.duration`.  `none` models the re-raised exception of the
`except` block. -/
def aggregateResults (files : List FileResult) (visionResults : List PageResult)
    (processingId : List Char) (metricsDuration : ℚ) (includeRaw : Bool) :
    Option ProcessDocumentsResponse := do
  let docs ← files.mapM fun fr => processFileResult fr visionResults includeRaw
  let totalPages := (docs.map (fun d => d.page_count)).sum
  some { success := determineOverallSuccess docs
         processing_id := processingId
         total_documents := docs.length
         total_pages := totalPages
         processed_documents := docs
         summary := calculateSummary metricsDuration docs }

/-! ### Concrete fixtures used by witnesses and counterexamples -/

/-- A concrete Vision configuration (defaults of `config/settings.py`):
`max_retries = 3`, `retry_delay = 1.0`, `vision_model = "gpt-4o"`. -/
def cfgDefault : VisionConfig :=
  { maxRetries := 3, retryDelay := 1, model := "gpt-4o".toList, isDevelopment := false }

/-- A concrete page descriptor. -/
def pageOne : PageData :=
  { page_id := some "p1".toList, page_number := some 1,
    image_path := some "img.png".toList }

/-- A `json.loads` model defined on the single body `"5"`. -/
def jsonLoadsFive : List Char → Option Json :=
  fun s => if s = "5".toList then some (Json.num 5) else none

/-- An environment whose first attempt is rate limited (HTTP 429) and
whose second succeeds (HTTP 200). -/
def envRetryThenOk : Nat → AttemptEvent :=
  fun a =>
    if a = 0 then AttemptEvent.httpResp 429 Json.null []
    else AttemptEvent.httpResp 200 (Json.obj []) []

/-- A capacity state with a full budget (30 requests, 125000 tokens per
minute) last refilled at time 0. -/
def capFull : CapacityState :=
  { available_request_capacity := 30, available_token_capacity := 125000,
    last_update_time := 0 }

/-- A second concrete page descriptor. -/
def pageTwo : PageData :=
  { page_id := some "p2".toList, page_number := some 2,
    image_path := some "img2.png".toList }


/-- A configuration where the operator set `concurrent_requests = 1`. -/
def onePermitSettings : PerformanceSettings :=
  { concurrent_requests := 1 }


/-- Whether an attempt event is the successful one (HTTP 200). -/
def isSuccessEvent (e : AttemptEvent) : Bool :=
  match e with
  | AttemptEvent.httpResp status _ _ => status == 200
  | _ => false


/-- A default page descriptor for positional lookups. -/
def dummyPage : PageData :=
  { page_id := none, page_number := none, image_path := none }


/-- A default page result for positional lookups. -/
def dummyResult : PageResult :=
  { page_id := none, page_number := none, success := false, error := none,
    extracted_content := none, raw_response := none, processing_time := 0,
    api_cost := 0 }


/-- Whether a page finds a successful vision outcome in the results map
(the success test of `_process_file_result` line 111). -/
def pageSucceeded (visionResults : List PageResult) (p : PageData) : Bool :=
  match p.page_id with
  | some pid =>
      match visionMapLookup visionResults pid with
      | some r => r.success
      | none => false
  | none => false


/-- Fixture: one file with one page and no vision outcome. -/
def frNoOutcome : FileResult :=
  { file_info := ⟨"f.pdf".toList⟩, document_type := some DocumentType.pdf,
    pages := [pageOne], errors := [] }


/-- Fixture: the document produced for `frNoOutcome` with no vision
results. -/
def docNoOutcome : ProcessedDocument :=
  { filename := "f.pdf".toList, document_type := some DocumentType.pdf,
    page_count := 1, processing_status := ProcessingStatus.failed,
    extracted_data := [], errors := [], processing_time := 0 }


/-- Fixture: the response aggregated from an empty batch. -/
def respEmpty : ProcessDocumentsResponse :=
  { success := false, processing_id := [], total_documents := 0,
    total_pages := 0, processed_documents := [],
    summary := { total_processing_time := 0, api_calls_made := 0,
                 estimated_cost := 0, success_rate := 0 } }


/-- Whether a decoded JSON value matches the canonical multi-document
envelope test of `_parse_vision_response` line 443: it has a
`documents` key whose value is a list. -/
def envelopeMatches (x : Json) : Bool :=
  match pySubscript x "documents".toList with
  | some docs => isJsonList docs
  | none => false


/-- Whether a decoded JSON value is a Python dict. -/
def isJsonObj (x : Json) : Bool :=
  match x with
  | Json.obj _ => true
  | _ => false


/-- An API response whose message content is the given string. -/
def respWithContent (c : List Char) : Json :=
  Json.obj [("choices".toList, Json.arr [Json.obj [("message".toList,
    Json.obj [("content".toList, Json.str c)])]])]


/-- A minimal canonical documents envelope. -/
def docsEnvX : Json :=
  Json.obj [("documents".toList, Json.arr [])]


/-- A `json.loads` model defined on the single body `"x"`. -/
def jsonLoadsX : List Char → Option Json :=
  fun c => if c = "x".toList then some docsEnvX else none


/-! ### Capacity lemmas (C1, C3) -/

/-- Shared helper: whatever the retry sequence does, the capacity after
`process_with_rate_limiting` is the admitted capacity minus exactly one
request and one token estimate. -/
theorem processWithRateLimiting_debit (cfg : VisionConfig) (maxReq : ℚ)
    (jsonLoads : List Char → Option Json) (elapsed : Nat → ℚ) (checkTimes : List ℚ)
    (page : PageData) (env : Nat → AttemptEvent) (s admitted : CapacityState)
    (h : waitForCapacity maxReq checkTimes s = some admitted) :
    ∃ r, processWithRateLimiting cfg maxReq jsonLoads elapsed checkTimes page env s =
        some r ∧
      r.2.2.2.available_request_capacity =
        admitted.available_request_capacity - 1 ∧
      r.2.2.2.available_token_capacity =
        admitted.available_token_capacity - estimatedTokensPerRequest := by
  refine ⟨((processSingleImage cfg jsonLoads elapsed page env).1,
    (processSingleImage cfg jsonLoads elapsed page env).2.1,
    (processSingleImage cfg jsonLoads elapsed page env).2.2,
    updateCapacityAfterRequest admitted), ?_, rfl, rfl⟩
  simp [processWithRateLimiting, h]

/-- C1 counterexample input: with a full budget, a page whose first
attempt is rate limited and whose second succeeds performs 2 attempts
but the request budget drops from 30 to 29 — one unit, not two. -/
theorem pipeline_two_attempts_one_debit :
    ((processWithRateLimiting cfgDefault 30 jsonLoadsFive (fun _ => 0) [0] pageOne
        envRetryThenOk capFull).map
      (fun r => (r.2.1, r.2.2.2.available_request_capacity))) = some (2, 29) ∧
    ¬ ((30 : ℚ) - 29 = 2) := by
  constructor
  · norm_num [processWithRateLimiting, waitForCapacity, updateAvailableCapacity,
      hasSufficientCapacity, capFull, estimatedTokensPerRequest, maxTokensPerMinute,
      processSingleImage, runAttempts, classifyAttempt, successResult,
      envRetryThenOk, cfgDefault, updateCapacityAfterRequest]
  · norm_num

/-- Amended C1: the capacity limiter is acquired and debited once per
*page task*, not once per attempt — for any number of attempts, the
budget after the task is the admitted budget minus exactly (1 request,
1000 tokens). -/
theorem capacity_debited_once_per_page (cfg : VisionConfig) (maxReq : ℚ)
    (jsonLoads : List Char → Option Json) (elapsed : Nat → ℚ) (checkTimes : List ℚ)
    (page : PageData) (env : Nat → AttemptEvent) (s admitted : CapacityState)
    (h : waitForCapacity maxReq checkTimes s = some admitted) :
    ∃ r, processWithRateLimiting cfg maxReq jsonLoads elapsed checkTimes page env s =
        some r ∧
      r.2.2.2.available_request_capacity =
        admitted.available_request_capacity - 1 ∧
      r.2.2.2.available_token_capacity =
        admitted.available_token_capacity - estimatedTokensPerRequest :=
  processWithRateLimiting_debit cfg maxReq jsonLoads elapsed checkTimes page env s
    admitted h

/-- Witness for `capacity_debited_once_per_page` at a concrete input. -/
theorem capacity_debited_once_per_page_witness :
    ∃ r, processWithRateLimiting cfgDefault 30 jsonLoadsFive (fun _ => 0) [0] pageOne
        envRetryThenOk capFull = some r ∧
      r.2.2.2.available_request_capacity =
        (updateAvailableCapacity 30 0 capFull).available_request_capacity - 1 ∧
      r.2.2.2.available_token_capacity =
        (updateAvailableCapacity 30 0 capFull).available_token_capacity -
          estimatedTokensPerRequest :=
  capacity_debited_once_per_page cfgDefault 30 jsonLoadsFive (fun _ => 0) [0] pageOne
    envRetryThenOk capFull (updateAvailableCapacity 30 0 capFull)
    (by norm_num [waitForCapacity, updateAvailableCapacity, hasSufficientCapacity,
      capFull, estimatedTokensPerRequest, maxTokensPerMinute])

/-- C3: the refill saturates at the configured maxima regardless of the
elapsed (even negative) idle time, and the post-request debit decreases
the counters by exactly one request and the fixed token estimate. -/
theorem capacity_refill_saturates_and_debit_exact (maxReq now : ℚ)
    (s : CapacityState) :
    (updateAvailableCapacity maxReq now s).available_request_capacity ≤ maxReq ∧
    (updateAvailableCapacity maxReq now s).available_token_capacity ≤
      maxTokensPerMinute ∧
    (updateCapacityAfterRequest s).available_request_capacity =
      s.available_request_capacity - 1 ∧
    (updateCapacityAfterRequest s).available_token_capacity =
      s.available_token_capacity - estimatedTokensPerRequest ∧
    (∀ (cfg : VisionConfig) (jsonLoads : List Char → Option Json)
      (elapsed : Nat → ℚ) (checkTimes : List ℚ) (page : PageData)
      (env : Nat → AttemptEvent) (admitted : CapacityState),
      waitForCapacity maxReq checkTimes s = some admitted →
      ∃ r, processWithRateLimiting cfg maxReq jsonLoads elapsed checkTimes page env s =
          some r ∧
        r.2.2.2.available_request_capacity =
          admitted.available_request_capacity - 1 ∧
        r.2.2.2.available_token_capacity =
          admitted.available_token_capacity - estimatedTokensPerRequest) := by
  refine ⟨min_le_right _ _, min_le_right _ _, rfl, rfl, ?_⟩
  intro cfg jsonLoads elapsed checkTimes page env admitted h
  exact processWithRateLimiting_debit cfg maxReq jsonLoads elapsed checkTimes page env
    s admitted h

/-- Witness for `capacity_refill_saturates_and_debit_exact` at a
concrete state and schedule. -/
theorem capacity_refill_saturates_and_debit_exact_witness :
    ((updateAvailableCapacity 30 0 capFull).available_request_capacity ≤ 30) ∧
    ∃ r, processWithRateLimiting cfgDefault 30 jsonLoadsFive (fun _ => 0) [0] pageOne
        envRetryThenOk capFull = some r ∧
      r.2.2.2.available_request_capacity =
        (updateAvailableCapacity 30 0 capFull).available_request_capacity - 1 ∧
      r.2.2.2.available_token_capacity =
        (updateAvailableCapacity 30 0 capFull).available_token_capacity -
          estimatedTokensPerRequest := by
  refine ⟨(capacity_refill_saturates_and_debit_exact 30 0 capFull).1, ?_⟩
  exact (capacity_refill_saturates_and_debit_exact 30 0 capFull).2.2.2.2
    cfgDefault jsonLoadsFive (fun _ => 0) [0] pageOne envRetryThenOk
    (updateAvailableCapacity 30 0 capFull)
    (by norm_num [waitForCapacity, updateAvailableCapacity, hasSufficientCapacity,
      capFull, estimatedTokensPerRequest, maxTokensPerMinute])

/-! ### Concurrency gate (C2) -/

/-- Semaphore bookkeeping: permits + in-flight tasks is constant. -/
theorem gateReachable_invariant {k : Nat} {s : GateState}
    (h : GateReachable k s) : s.permits + s.inFlight = k := by
  induction h with
  | init => simp
  | step _ hstep ih =>
      cases hstep with
      | acquire p f => simp at ih ⊢; omega
      | release p f => simp at ih ⊢; omega

/-- C2 counterexample: with `concurrent_requests = 1` configured and two
pages, the semaphore created by `process_images` (hard-coded
`min(3, len(pages))` = 2 permits) admits a reachable state with two
tasks in flight, exceeding `min(concurrent_requests, page_count) = 1`. -/
theorem gate_exceeds_configured_bound :
    GateReachable (maxConcurrent [pageOne, pageTwo]) ⟨0, 2⟩ ∧
    min onePermitSettings.concurrent_requests [pageOne, pageTwo].length < 2 := by
  constructor
  · exact GateReachable.step
      (GateReachable.step GateReachable.init (GateStep.acquire 1 0))
      (GateStep.acquire 0 1)
  · decide

/-- Amended C2: in every state reachable under the semaphore discipline
of `process_images`, the number of in-flight page tasks is bounded by
`min(3, page_count)` — the hard-coded constant 3, not the configured
`concurrent_requests` setting. -/
theorem inflight_bounded_by_min3 (pages : List PageData) (s : GateState)
    (h : GateReachable (maxConcurrent pages) s) :
    s.inFlight ≤ min 3 pages.length := by
  have hinv := gateReachable_invariant h
  simp only [maxConcurrent] at hinv
  omega

/-- Witness for `inflight_bounded_by_min3` at the initial state of a
one-page batch. -/
theorem inflight_bounded_by_min3_witness :
    (⟨1, 0⟩ : GateState).inFlight ≤ min 3 [pageOne].length :=
  inflight_bounded_by_min3 [pageOne] ⟨1, 0⟩ GateReachable.init

/-! ### Retry loop lemmas (C4) -/

/-- A terminal result of one loop iteration reports the page's own id
and number. -/
theorem classifyAttempt_finish_fields (cfg : VisionConfig)
    (jl : List Char → Option Json) (el : Nat → ℚ) (page : PageData)
    (attempt : Nat) (e : AttemptEvent) (r : PageResult)
    (h : classifyAttempt cfg jl el page attempt e = AttemptStep.finish r) :
    r.page_id = page.page_id ∧ r.page_number = page.page_number := by
  cases e with
  | trackerBlocked => simp [classifyAttempt] at h
  | encodeFail =>
      simp [classifyAttempt] at h
      subst h; simp [createErrorResult]
  | httpResp status body text =>
      simp only [classifyAttempt] at h
      split_ifs at h <;> simp at h <;> subst h <;>
        simp [createErrorResult, successResult]
  | timeout =>
      simp only [classifyAttempt] at h
      split_ifs at h <;> simp at h <;> subst h <;> simp [createErrorResult]
  | unexpected msg =>
      simp only [classifyAttempt] at h
      split_ifs at h <;> simp at h <;> subst h <;> simp [createErrorResult]

/-- A terminal failure of one loop iteration carries a populated
error. -/
theorem classifyAttempt_finish_error (cfg : VisionConfig)
    (jl : List Char → Option Json) (el : Nat → ℚ) (page : PageData)
    (attempt : Nat) (e : AttemptEvent) (r : PageResult)
    (h : classifyAttempt cfg jl el page attempt e = AttemptStep.finish r) :
    r.success = false → r.error.isSome = true := by
  cases e with
  | trackerBlocked => simp [classifyAttempt] at h
  | encodeFail =>
      simp [classifyAttempt] at h
      subst h; simp [createErrorResult]
  | httpResp status body text =>
      simp only [classifyAttempt] at h
      split_ifs at h <;> simp at h <;> subst h <;>
        simp [createErrorResult, successResult]
  | timeout =>
      simp only [classifyAttempt] at h
      split_ifs at h <;> simp at h <;> subst h <;> simp [createErrorResult]
  | unexpected msg =>
      simp only [classifyAttempt] at h
      split_ifs at h <;> simp at h <;> subst h <;> simp [createErrorResult]

/-- A terminal success of one loop iteration can only come from an HTTP
200 event. -/
theorem classifyAttempt_finish_success (cfg : VisionConfig)
    (jl : List Char → Option Json) (el : Nat → ℚ) (page : PageData)
    (attempt : Nat) (e : AttemptEvent) (r : PageResult)
    (h : classifyAttempt cfg jl el page attempt e = AttemptStep.finish r) :
    r.success = true → isSuccessEvent e = true := by
  cases e with
  | trackerBlocked => simp [classifyAttempt] at h
  | encodeFail =>
      simp [classifyAttempt] at h
      subst h; simp [createErrorResult]
  | httpResp status body text =>
      simp only [classifyAttempt] at h
      split_ifs at h with h200 <;> simp at h <;> subst h <;>
        simp [createErrorResult, successResult, isSuccessEvent, h200]
  | timeout =>
      simp only [classifyAttempt] at h
      split_ifs at h <;> simp at h <;> subst h <;> simp [createErrorResult]
  | unexpected msg =>
      simp only [classifyAttempt] at h
      split_ifs at h <;> simp at h <;> subst h <;> simp [createErrorResult]

/-- A backoff sleep decided by one loop iteration is always
`retry_delay × 2^attempt`. -/
theorem classifyAttempt_wait (cfg : VisionConfig)
    (jl : List Char → Option Json) (el : Nat → ℚ) (page : PageData)
    (attempt : Nat) (e : AttemptEvent) (w : ℚ)
    (h : classifyAttempt cfg jl el page attempt e = AttemptStep.retryWait w) :
    w = cfg.retryDelay * 2 ^ attempt := by
  cases e with
  | trackerBlocked => simp [classifyAttempt] at h
  | encodeFail => simp [classifyAttempt] at h
  | httpResp status body text =>
      simp only [classifyAttempt] at h
      split_ifs at h <;> simp at h <;> exact h.symm
  | timeout =>
      simp only [classifyAttempt] at h
      split_ifs at h <;> simp at h <;> exact h.symm
  | unexpected msg =>
      simp only [classifyAttempt] at h
      split_ifs at h <;> simp at h <;> exact h.symm

/-- The retry loop consumes at most `fuel` iterations. -/
theorem runAttempts_used_le (cfg : VisionConfig) (jl : List Char → Option Json)
    (el : Nat → ℚ) (page : PageData) (env : Nat → AttemptEvent) :
    ∀ fuel attempt, (runAttempts cfg jl el page env fuel attempt).2.1 ≤ fuel := by
  intro fuel
  induction fuel with
  | zero => intro attempt; simp [runAttempts]
  | succ n ih =>
      intro attempt
      simp only [runAttempts]
      cases hc : classifyAttempt cfg jl el page attempt (env attempt) with
      | finish r => simp
      | retryWait w => simpa using Nat.succ_le_succ (ih (attempt + 1))
      | retryNoWait => simpa using Nat.succ_le_succ (ih (attempt + 1))

/-- Every failure result of the retry loop carries a populated error. -/
theorem runAttempts_failure_has_error (cfg : VisionConfig)
    (jl : List Char → Option Json) (el : Nat → ℚ) (page : PageData)
    (env : Nat → AttemptEvent) :
    ∀ fuel attempt, (runAttempts cfg jl el page env fuel attempt).1.success = false →
      (runAttempts cfg jl el page env fuel attempt).1.error.isSome = true := by
  intro fuel
  induction fuel with
  | zero => intro attempt _; simp [runAttempts, createErrorResult]
  | succ n ih =>
      intro attempt
      simp only [runAttempts]
      cases hc : classifyAttempt cfg jl el page attempt (env attempt) with
      | finish r =>
          simpa using classifyAttempt_finish_error cfg jl el page attempt
            (env attempt) r hc
      | retryWait w => simpa using ih (attempt + 1)
      | retryNoWait => simpa using ih (attempt + 1)

/-- A success result of the retry loop requires an HTTP 200 event. -/
theorem runAttempts_success_requires_200 (cfg : VisionConfig)
    (jl : List Char → Option Json) (el : Nat → ℚ) (page : PageData)
    (env : Nat → AttemptEvent) :
    ∀ fuel attempt, (runAttempts cfg jl el page env fuel attempt).1.success = true →
      ∃ a, isSuccessEvent (env a) = true := by
  intro fuel
  induction fuel with
  | zero => intro attempt h; simp [runAttempts, createErrorResult] at h
  | succ n ih =>
      intro attempt
      simp only [runAttempts]
      cases hc : classifyAttempt cfg jl el page attempt (env attempt) with
      | finish r =>
          intro h
          simp at h
          exact ⟨attempt, classifyAttempt_finish_success cfg jl el page attempt
            (env attempt) r hc h⟩
      | retryWait w =>
          intro h
          simp at h
          exact ih (attempt + 1) h
      | retryNoWait =>
          intro h
          simp at h
          exact ih (attempt + 1) h

/-- Every backoff sleep recorded by the retry loop is
`retry_delay × 2^attempt` for its attempt index. -/
theorem runAttempts_waits (cfg : VisionConfig) (jl : List Char → Option Json)
    (el : Nat → ℚ) (page : PageData) (env : Nat → AttemptEvent) :
    ∀ fuel attempt, ∀ p ∈ (runAttempts cfg jl el page env fuel attempt).2.2,
      p.2 = cfg.retryDelay * 2 ^ p.1 := by
  intro fuel
  induction fuel with
  | zero => intro attempt p hp; simp [runAttempts] at hp
  | succ n ih =>
      intro attempt p
      simp only [runAttempts]
      cases hc : classifyAttempt cfg jl el page attempt (env attempt) with
      | finish r => intro hp; simp at hp
      | retryWait w =>
          intro hp
          simp at hp
          rcases hp with hp | hp
          · subst hp
            simpa using classifyAttempt_wait cfg jl el page attempt (env attempt) w hc
          · exact ih (attempt + 1) p hp
      | retryNoWait =>
          intro hp
          simp at hp
          exact ih (attempt + 1) p hp

/-- The retry loop always reports the page's own id and number. -/
theorem runAttempts_page_fields (cfg : VisionConfig) (jl : List Char → Option Json)
    (el : Nat → ℚ) (page : PageData) (env : Nat → AttemptEvent) :
    ∀ fuel attempt,
      (runAttempts cfg jl el page env fuel attempt).1.page_id = page.page_id ∧
      (runAttempts cfg jl el page env fuel attempt).1.page_number = page.page_number := by
  intro fuel
  induction fuel with
  | zero => intro attempt; simp [runAttempts, createErrorResult]
  | succ n ih =>
      intro attempt
      simp only [runAttempts]
      cases hc : classifyAttempt cfg jl el page attempt (env attempt) with
      | finish r =>
          simpa using classifyAttempt_finish_fields cfg jl el page attempt
            (env attempt) r hc
      | retryWait w => simpa using ih (attempt + 1)
      | retryNoWait => simpa using ih (attempt + 1)

/-- A 400 response on the first attempt terminates immediately with the
bad-request API_FAILURE result. -/
theorem processSingleImage_400 (cfg : VisionConfig) (jl : List Char → Option Json)
    (el : Nat → ℚ) (page : PageData) (env : Nat → AttemptEvent)
    (body : Json) (text : List Char)
    (h : env 0 = AttemptEvent.httpResp 400 body text) :
    processSingleImage cfg jl el page env =
      (createErrorResult page.page_id page.page_number ErrorCategory.apiFailure
        ("Bad request: ".toList ++ text) (el 0)
        (some "Check image format and size".toList), 1, []) := by
  simp [processSingleImage, runAttempts, h, classifyAttempt]

/-- C4: processing a single page is total — every failure outcome has a
populated typed error; a 400 response on the first attempt yields
exactly one attempt and an immediate terminal API_FAILURE; every
recorded backoff sleep is `retry_delay × 2^attempt`; at most
`max_retries + 1` attempts are performed; and when no attempt ever
returns HTTP 200, the outcome is a terminal failure with `success=false`
and a populated error. -/
theorem retry_policy_terminal_outcomes (cfg : VisionConfig)
    (jl : List Char → Option Json) (el : Nat → ℚ) (page : PageData)
    (env : Nat → AttemptEvent) :
    (processSingleImage cfg jl el page env).2.1 ≤ cfg.maxRetries + 1 ∧
    ((processSingleImage cfg jl el page env).1.success = false →
      (processSingleImage cfg jl el page env).1.error.isSome = true) ∧
    (∀ body text, env 0 = AttemptEvent.httpResp 400 body text →
      (processSingleImage cfg jl el page env).2.1 = 1 ∧
      (processSingleImage cfg jl el page env).1.success = false ∧
      ((processSingleImage cfg jl el page env).1.error.map
        (fun e => e.error_category)) = some ErrorCategory.apiFailure) ∧
    (∀ p ∈ (processSingleImage cfg jl el page env).2.2,
      p.2 = cfg.retryDelay * 2 ^ p.1) ∧
    ((∀ a, isSuccessEvent (env a) = false) →
      (processSingleImage cfg jl el page env).1.success = false ∧
      (processSingleImage cfg jl el page env).1.error.isSome = true) := by
  refine ⟨runAttempts_used_le cfg jl el page env (cfg.maxRetries + 1) 0,
    runAttempts_failure_has_error cfg jl el page env (cfg.maxRetries + 1) 0,
    ?_, runAttempts_waits cfg jl el page env (cfg.maxRetries + 1) 0, ?_⟩
  · intro body text h
    rw [processSingleImage_400 cfg jl el page env body text h]
    simp [createErrorResult]
  · intro hall
    have hfail : (processSingleImage cfg jl el page env).1.success = false := by
      cases hs : (processSingleImage cfg jl el page env).1.success with
      | false => rfl
      | true =>
          obtain ⟨a, ha⟩ :=
            runAttempts_success_requires_200 cfg jl el page env (cfg.maxRetries + 1) 0 hs
          rw [hall a] at ha
          cases ha
    exact ⟨hfail,
      runAttempts_failure_has_error cfg jl el page env (cfg.maxRetries + 1) 0 hfail⟩

/-- Witness for `retry_policy_terminal_outcomes`: a page whose first
attempt gets HTTP 400. -/
theorem retry_policy_terminal_outcomes_witness :
    (processSingleImage cfgDefault jsonLoadsFive (fun _ => 0) pageOne
      (fun _ => AttemptEvent.httpResp 400 Json.null "bad".toList)).2.1 = 1 ∧
    (processSingleImage cfgDefault jsonLoadsFive (fun _ => 0) pageOne
      (fun _ => AttemptEvent.httpResp 400 Json.null "bad".toList)).1.success = false := by
  have h := retry_policy_terminal_outcomes cfgDefault jsonLoadsFive (fun _ => 0)
    pageOne (fun _ => AttemptEvent.httpResp 400 Json.null "bad".toList)
  have h3 := h.2.2.1 Json.null "bad".toList rfl
  exact ⟨h3.1, h3.2.1⟩

/-! ### process_images fan-out (C10) -/

/-- `process_images` produces exactly one result per page. -/
theorem processImagesGo_length (cfg : VisionConfig) (jl : List Char → Option Json)
    (te : Nat → TaskEnv) :
    ∀ (ps : List PageData) (i : Nat),
      (processImagesGo cfg jl te i ps).length = ps.length := by
  intro ps
  induction ps with
  | nil => intro i; simp [processImagesGo]
  | cons p rest ih => intro i; simp [processImagesGo, ih (i + 1)]

/-- The i-th result of `process_images` is the i-th page's task result. -/
theorem processImagesGo_getD (cfg : VisionConfig) (jl : List Char → Option Json)
    (te : Nat → TaskEnv) :
    ∀ (ps : List PageData) (start i : Nat), i < ps.length →
      (processImagesGo cfg jl te start ps).getD i dummyResult =
        (match te (start + i) with
         | TaskEnv.raises msg => gatherExceptionResult (ps.getD i dummyPage) msg
         | TaskEnv.completes env elapsed =>
             (processSingleImage cfg jl elapsed (ps.getD i dummyPage) env).1) := by
  intro ps
  induction ps with
  | nil => intro start i h; simp at h
  | cons p rest ih =>
      intro start i h
      cases i with
      | zero => simp [processImagesGo]
      | succ j =>
          have hj : j < rest.length := by simpa using h
          have := ih (start + 1) j hj
          simp only [processImagesGo, List.getD_cons_succ]
          rw [this]
          have harith : start + 1 + j = start + (j + 1) := by omega
          rw [harith]

/-- C10: `process_images` returns one result per input page, the i-th
result carries the i-th page's id and number, and a page task whose
gathered outcome is an exception becomes a `success=false` result with a
SYSTEM_ERROR typed error, zero cost and zero processing time. -/
theorem process_images_outcome_per_page (cfg : VisionConfig)
    (jl : List Char → Option Json) (pages : List PageData) (te : Nat → TaskEnv) :
    (processImages cfg jl pages te).length = pages.length ∧
    (∀ i, i < pages.length →
      ((processImages cfg jl pages te).getD i dummyResult).page_id =
        (pages.getD i dummyPage).page_id ∧
      ((processImages cfg jl pages te).getD i dummyResult).page_number =
        (pages.getD i dummyPage).page_number ∧
      (∀ msg, te i = TaskEnv.raises msg →
        ((processImages cfg jl pages te).getD i dummyResult).success = false ∧
        ((processImages cfg jl pages te).getD i dummyResult).error.map
          (fun e => e.error_category) = some ErrorCategory.systemError ∧
        ((processImages cfg jl pages te).getD i dummyResult).api_cost = 0 ∧
        ((processImages cfg jl pages te).getD i dummyResult).processing_time = 0)) := by
  constructor
  · exact processImagesGo_length cfg jl te pages 0
  · intro i hi
    have hgo := processImagesGo_getD cfg jl te pages 0 i hi
    simp only [Nat.zero_add] at hgo
    unfold processImages
    rw [hgo]
    cases hte : te i with
    | raises msg =>
        refine ⟨by simp [gatherExceptionResult], by simp [gatherExceptionResult], ?_⟩
        intro msg2 hmsg2
        simp [gatherExceptionResult]
    | completes env elapsed =>
        refine ⟨(runAttempts_page_fields cfg jl elapsed (pages.getD i dummyPage) env
            (cfg.maxRetries + 1) 0).1,
          (runAttempts_page_fields cfg jl elapsed (pages.getD i dummyPage) env
            (cfg.maxRetries + 1) 0).2, ?_⟩
        intro msg2 hmsg2
        cases hmsg2

/-- Witness for `process_images_outcome_per_page`: a one-page batch whose
task raises. -/
theorem process_images_outcome_per_page_witness :
    ((processImages cfgDefault jsonLoadsFive [pageOne]
        (fun _ => TaskEnv.raises "boom".toList)).getD 0 dummyResult).success = false ∧
    ((processImages cfgDefault jsonLoadsFive [pageOne]
        (fun _ => TaskEnv.raises "boom".toList)).getD 0 dummyResult).page_id =
      pageOne.page_id := by
  have h := process_images_outcome_per_page cfgDefault jsonLoadsFive [pageOne]
    (fun _ => TaskEnv.raises "boom".toList)
  have h0 := h.2 0 (by decide)
  exact ⟨(h0.2.2 "boom".toList rfl).1, h0.1⟩

/-! ### Aggregator lemmas (C5, C6, C7) -/

/-- The per-page loop counts exactly the pages with a successful vision
outcome, and appends one extracted-data entry per such page. -/
theorem processPages_counts (vrs : List PageResult) (inc : Bool) :
    ∀ (pages : List PageData) eds errs succ t,
      processPages vrs inc pages = some (eds, errs, succ, t) →
      succ = (pages.filter (pageSucceeded vrs)).length ∧ eds.length = succ := by
  intro pages
  induction pages with
  | nil =>
      intro eds errs succ t h
      simp [processPages, -Prod.mk_zero_zero] at h
      obtain ⟨h1, h2, h3, h4⟩ := h
      constructor
      · simp [← h3]
      · simp [h1, ← h3]
  | cons page rest ih =>
      intro eds errs succ t h
      cases hpid : page.page_id with
      | none => simp [processPages, hpid] at h
      | some pid =>
          cases hpnum : page.page_number with
          | none => simp [processPages, hpid, hpnum] at h
          | some pnum =>
              cases hrest : processPages vrs inc rest with
              | none => simp [processPages, hpid, hpnum, hrest] at h
              | some restRes =>
                  obtain ⟨eds0, errs0, succ0, t0⟩ := restRes
                  have ihr := ih eds0 errs0 succ0 t0 hrest
                  cases hvr : visionMapLookup vrs pid with
                  | none =>
                      simp [processPages, hpid, hpnum, hrest, hvr] at h
                      obtain ⟨h1, h2, h3, h4⟩ := h
                      have hps : pageSucceeded vrs page = false := by
                        simp [pageSucceeded, hpid, hvr]
                      constructor
                      · simp [← h3, ihr.1, List.filter_cons, hps]
                      · simp [← h1, ← h3, ihr.2]
                  | some vr =>
                      cases hsucc : vr.success with
                      | false =>
                          simp [processPages, hpid, hpnum, hrest, hvr, hsucc] at h
                          obtain ⟨h1, h2, h3, h4⟩ := h
                          have hps : pageSucceeded vrs page = false := by
                            simp [pageSucceeded, hpid, hvr, hsucc]
                          constructor
                          · simp [← h3, ihr.1, List.filter_cons, hps]
                          · simp [← h1, ← h3, ihr.2]
                      | true =>
                          cases htr : transformExtractedContent
                              (optJson vr.extracted_content) with
                          | none =>
                              simp [processPages, hpid, hpnum, hrest, hvr, hsucc,
                                htr] at h
                          | some content =>
                              simp [processPages, hpid, hpnum, hrest, hvr, hsucc,
                                htr] at h
                              obtain ⟨h1, h2, h3, h4⟩ := h
                              have hps : pageSucceeded vrs page = true := by
                                simp [pageSucceeded, hpid, hvr, hsucc]
                              constructor
                              · simp [← h3, ihr.1, List.filter_cons, hps]
                              · simp [← h1, ← h3, ihr.2]

/-- C5: the document status is FAILED when zero pages succeeded
(including an empty page list), SUCCESS when all pages succeeded and the
error list (file-level errors included) is empty, and PARTIAL
otherwise. -/
theorem document_status_rule (fr : FileResult) (vrs : List PageResult) (inc : Bool)
    (d : ProcessedDocument) (h : processFileResult fr vrs inc = some d) :
    ((fr.pages.filter (pageSucceeded vrs)).length = 0 →
      d.processing_status = ProcessingStatus.failed) ∧
    ((fr.pages.filter (pageSucceeded vrs)).length ≠ 0 →
      (fr.pages.filter (pageSucceeded vrs)).length = fr.pages.length →
      d.errors = [] → d.processing_status = ProcessingStatus.success) ∧
    ((fr.pages.filter (pageSucceeded vrs)).length ≠ 0 →
      ((fr.pages.filter (pageSucceeded vrs)).length ≠ fr.pages.length ∨
        d.errors ≠ []) →
      d.processing_status = ProcessingStatus.partialStatus) := by
  cases hpp : processPages vrs inc fr.pages with
  | none => simp [processFileResult, hpp] at h
  | some pr =>
      obtain ⟨eds, errs, succ, t⟩ := pr
      have hc := processPages_counts vrs inc fr.pages eds errs succ t hpp
      simp [processFileResult, hpp] at h
      subst h
      refine ⟨?_, ?_, ?_⟩
      · intro h0
        have hs0 : succ = 0 := by rw [hc.1]; exact h0
        simp [hs0]
      · intro hne hall herr
        have hs0 : ¬ succ = 0 := by rw [hc.1]; exact hne
        have hsl : succ = fr.pages.length := by rw [hc.1]; exact hall
        have hel : fr.errors = [] ∧ errs = [] := by simpa using herr
        have hpne : ¬ fr.pages = [] := by
          intro hnil
          rw [hnil] at hsl
          simp at hsl
          exact hs0 hsl
        simp [hs0, hsl, hel.1, hel.2, hpne]
      · intro hne hor
        have hs0 : ¬ succ = 0 := by rw [hc.1]; exact hne
        rcases hor with hor | hor
        · have hnl : ¬ succ = fr.pages.length := by rw [hc.1]; exact hor
          simp [hs0, hnl]
        · have hne2 : ¬ (fr.errors = [] ∧ errs = []) := by
            intro hcon
            exact hor (by simp [hcon.1, hcon.2])
          simp [hs0, hne2]

/-- Witness for `document_status_rule`: a one-page document none of
whose pages succeeded is FAILED. -/
theorem document_status_rule_witness :
    docNoOutcome.processing_status = ProcessingStatus.failed :=
  (document_status_rule frNoOutcome [] false docNoOutcome rfl).1 rfl

/-- `_determine_overall_success` is true exactly when some document is
SUCCESS or PARTIAL. -/
theorem determineOverallSuccess_iff (docs : List ProcessedDocument) :
    determineOverallSuccess docs = true ↔
      ∃ d ∈ docs, d.processing_status = ProcessingStatus.success ∨
        d.processing_status = ProcessingStatus.partialStatus := by
  unfold determineOverallSuccess
  cases docs with
  | nil => simp
  | cons dd rest => simp [List.any_eq_true]

/-- C6: the top-level success flag is true iff at least one document is
SUCCESS or PARTIAL; an empty batch yields `success=false`,
`total_documents=0`, `total_pages=0`. -/
theorem batch_success_iff (files : List FileResult) (vrs : List PageResult)
    (pid : List Char) (dur : ℚ) (inc : Bool) (resp : ProcessDocumentsResponse)
    (h : aggregateResults files vrs pid dur inc = some resp) :
    (resp.success = true ↔
      ∃ d ∈ resp.processed_documents,
        d.processing_status = ProcessingStatus.success ∨
        d.processing_status = ProcessingStatus.partialStatus) ∧
    (files = [] → resp.success = false ∧ resp.total_documents = 0 ∧
      resp.total_pages = 0) := by
  unfold aggregateResults at h
  cases hm : files.mapM (fun fr => processFileResult fr vrs inc) with
  | none => rw [hm] at h; simp at h
  | some docs =>
      rw [hm] at h
      simp at h
      subst h
      constructor
      · simpa using determineOverallSuccess_iff docs
      · intro hfe
        subst hfe
        have hdocs : docs = [] := by
          simp [List.mapM.loop] at hm
          first
          | exact hm.symm
          | exact hm
        subst hdocs
        simp [determineOverallSuccess]

/-- Witness for `batch_success_iff`: the empty batch. -/
theorem batch_success_iff_witness :
    respEmpty.success = false ∧ respEmpty.total_documents = 0 ∧
      respEmpty.total_pages = 0 :=
  (batch_success_iff [] [] [] 0 false respEmpty rfl).2 rfl

/-- The inner summary loop counts entries and sums their costs. -/
theorem documentCallsAndCost_spec (es : List ExtractedData) :
    documentCallsAndCost es =
      (es.length, (es.map (fun e => e.page_metadata.api_cost.getD 0)).sum) := by
  induction es with
  | nil => simp [documentCallsAndCost]
  | cons e rest ih => simp [documentCallsAndCost, ih]

/-- The outer summary loop totals entry counts and costs over all
documents. -/
theorem totalCallsAndCost_spec (docs : List ProcessedDocument) :
    totalCallsAndCost docs =
      ((docs.map (fun d => d.extracted_data.length)).sum,
        (docs.map (fun d =>
          (d.extracted_data.map (fun e => e.page_metadata.api_cost.getD 0)).sum)).sum) := by
  induction docs with
  | nil => simp [totalCallsAndCost]
  | cons d rest ih => simp [totalCallsAndCost, ih, documentCallsAndCost_spec]

/-- The success-rate field of the summary, by definition. -/
theorem calculateSummary_success_rate (dur : ℚ) (docs : List ProcessedDocument) :
    (calculateSummary dur docs).success_rate =
      if 0 < (docs.map (fun d => d.page_count)).sum then
        (((docs.map (fun d => d.extracted_data.length)).sum : ℕ) : ℚ) /
          (((docs.map (fun d => d.page_count)).sum : ℕ) : ℚ) * 100
      else 0 := rfl

/-- C7: `api_calls_made` counts the extracted-data entries (successful
page results) across all documents, `estimated_cost` sums each
successful page's recorded cost, and `success_rate` is successful pages
over total pages times 100, or 0 when there are no pages. -/
theorem summary_calls_cost_rate (dur : ℚ) (docs : List ProcessedDocument) :
    (calculateSummary dur docs).api_calls_made =
      (docs.map (fun d => d.extracted_data.length)).sum ∧
    (calculateSummary dur docs).estimated_cost =
      (docs.map (fun d =>
        (d.extracted_data.map (fun e => e.page_metadata.api_cost.getD 0)).sum)).sum ∧
    ((docs.map (fun d => d.page_count)).sum = 0 →
      (calculateSummary dur docs).success_rate = 0) ∧
    (0 < (docs.map (fun d => d.page_count)).sum →
      (calculateSummary dur docs).success_rate =
        (((docs.map (fun d => d.extracted_data.length)).sum : ℕ) : ℚ) /
          (((docs.map (fun d => d.page_count)).sum : ℕ) : ℚ) * 100) := by
  refine ⟨?_, ?_, ?_, ?_⟩
  · simp [calculateSummary, totalCallsAndCost_spec]
  · simp [calculateSummary, totalCallsAndCost_spec]
  · intro h0
    rw [calculateSummary_success_rate, if_neg (by omega)]
  · intro hpos
    rw [calculateSummary_success_rate, if_pos hpos]

/-- Witness for `summary_calls_cost_rate`: the empty document list. -/
theorem summary_calls_cost_rate_witness :
    (calculateSummary 0 ([] : List ProcessedDocument)).success_rate = 0 ∧
    (calculateSummary 0 ([] : List ProcessedDocument)).api_calls_made = 0 :=
  ⟨(summary_calls_cost_rate 0 []).2.2.1 rfl,
    by simpa using (summary_calls_cost_rate 0 []).1⟩

/-! ### Response normalizer lemmas (C8, C9) -/

/-- Stripping a leading whitespace character commutes with `strip()`. -/
theorem pyStrip_cons_ws (c : Char) (l : List Char) (h : pyWhitespaceChar c = true) :
    pyStrip (c :: l) = pyStrip l := by
  simp [pyStrip, List.dropWhile_cons, h]

/-- Stripping a trailing whitespace character commutes with `strip()`. -/
theorem pyStrip_append_ws (d : Char) (l : List Char) (h : pyWhitespaceChar d = true) :
    pyStrip (l ++ [d]) = pyStrip l := by
  by_cases hE : (l.dropWhile pyWhitespaceChar).isEmpty
  · have hnil : l.dropWhile pyWhitespaceChar = [] := by
      simpa [List.isEmpty_iff] using hE
    simp [pyStrip, List.dropWhile_append, hnil, h]
  · have hne : ¬ (l.dropWhile pyWhitespaceChar).isEmpty = true := hE
    simp [pyStrip, List.dropWhile_append, hne, List.dropWhile_cons, h]

/-- `strip()` fixes a string with non-whitespace first and last
characters. -/
theorem pyStrip_eq_self (c d : Char) (l : List Char)
    (hc : pyWhitespaceChar c = false) (hd : pyWhitespaceChar d = false) :
    pyStrip (c :: (l ++ [d])) = c :: (l ++ [d]) := by
  simp [pyStrip, List.dropWhile_cons, hc, hd, List.reverse_append,
    List.dropWhile_append]

/-- A string starting with `a ++ b` starts with `a`. -/
theorem startsWith_of_startsWith_append (x a b : List Char)
    (h : pyStartsWith x (a ++ b) = true) : pyStartsWith x a = true := by
  rw [pyStartsWith, List.isPrefixOf_iff_prefix] at h ⊢
  exact (List.prefix_append a b).trans h

/-- Fence stripping on an explicit character-level fence. -/
theorem cleanContent_fence_chars (s : List Char) :
    cleanContent ('`' :: '`' :: '`' :: 'j' :: 's' :: 'o' :: 'n' :: '\n' ::
      (s ++ ['\n', '`', '`', '`'])) = pyStrip s := by
  have hs1 : pyStrip ('`' :: '`' :: '`' :: 'j' :: 's' :: 'o' :: 'n' :: '\n' ::
      (s ++ ['\n', '`', '`', '`'])) =
      '`' :: '`' :: '`' :: 'j' :: 's' :: 'o' :: 'n' :: '\n' ::
      (s ++ ['\n', '`', '`', '`']) := by
    have h := pyStrip_eq_self '`' '`'
      ('`' :: '`' :: 'j' :: 's' :: 'o' :: 'n' :: '\n' :: (s ++ ['\n', '`', '`']))
      (by decide) (by decide)
    simpa using h
  simp [cleanContent, hs1, pyStartsWith, pyEndsWith, dropLastN, List.isPrefixOf,
    List.reverse_append, pyStrip_cons_ws, pyStrip_append_ws]
  rw [pyStrip_cons_ws '\n' _ (by decide), pyStrip_append_ws '\n' s (by decide)]

/-- Cleaning a response body wrapped in a leading ```json fence and a
trailing ``` fence yields the stripped inner body. -/
theorem cleanContent_fence (s : List Char) :
    cleanContent ("```json\n".toList ++ s ++ "\n```".toList) = pyStrip s := by
  have he : "```json\n".toList ++ s ++ "\n```".toList =
      '`' :: '`' :: '`' :: 'j' :: 's' :: 'o' :: 'n' :: '\n' ::
        (s ++ ['\n', '`', '`', '`']) := by
    simp
  rw [he]
  exact cleanContent_fence_chars s

/-- Cleaning a body whose stripped form carries no fence is just
`strip()`. -/
theorem cleanContent_plain (s : List Char)
    (h : pyStartsWith (pyStrip s) ("```".toList) = false) :
    cleanContent s = pyStrip s := by
  have happ : ("```json".toList : List Char) = "```".toList ++ "json".toList := rfl
  have h7 : pyStartsWith (pyStrip s) ("```json".toList) = false := by
    cases hx : pyStartsWith (pyStrip s) ("```json".toList) with
    | false => rfl
    | true =>
        rw [happ] at hx
        have h3 := startsWith_of_startsWith_append (pyStrip s) ("```".toList)
          ("json".toList) hx
        rw [h3] at h
        cases h
  have hl3 : ("```".toList : List Char) = ['`', '`', '`'] := rfl
  have hl7 : ("```json".toList : List Char) = ['`', '`', '`', 'j', 's', 'o', 'n'] := rfl
  rw [hl3] at h
  rw [hl7] at h7
  simp [cleanContent, h7, h]

/-- `.get(k, default)` on a dict returns the stored value or the
default. -/
theorem pyDictGet_obj (fields : List (List Char × Json)) (k : List Char)
    (d : Json) :
    pyDictGet (Json.obj fields) k d = some ((jsonLookup fields k).getD d) := by
  cases h : jsonLookup fields k <;> simp [pyDictGet, h]

/-- A body that parses to a matching documents envelope passes through
the normalizer unchanged. -/
theorem parseFromContent_passthrough (jsonLoads : List Char → Option Json)
    (content : List Char) (j : Json)
    (hclean : jsonLoads (cleanContent content) = some j)
    (hm : envelopeMatches j = true) :
    parseFromContent jsonLoads content = some j := by
  cases j with
  | obj fields =>
      cases hdoc : jsonLookup fields ['d', 'o', 'c', 'u', 'm', 'e', 'n', 't', 's'] with
      | none => simp [envelopeMatches, pySubscript, hdoc] at hm
      | some docs =>
          have hlist : isJsonList docs = true := by
            simpa [envelopeMatches, pySubscript, hdoc] using hm
          simp [parseFromContent, hclean, pyContains, pySubscript, hdoc, hlist]
  | null => simp [envelopeMatches, pySubscript] at hm
  | bool b => simp [envelopeMatches, pySubscript] at hm
  | num q => simp [envelopeMatches, pySubscript] at hm
  | str s0 => simp [envelopeMatches, pySubscript] at hm
  | arr elems => simp [envelopeMatches, pySubscript] at hm

/-- C8 counterexample input: the body `"5"` parses as JSON (to the
number 5) and does not match the envelope, yet the normalizer returns
the empty-content envelope with confidence 0, not the 0.5 wrap the
claim requires. -/
theorem parse_nonobject_json_yields_confidence_zero :
    jsonLoadsFive (cleanContent "5".toList) = some (Json.num 5) ∧
    isJsonObj (Json.num 5) = false ∧
    parseVisionResponse jsonLoadsFive (respWithContent "5".toList) =
      canonicalEnvelope (Json.arr []) (Json.str "Failed to parse response".toList)
        0 ∧
    ¬ ((0 : ℚ) = 1 / 2) :=
  ⟨rfl, rfl, rfl, by norm_num⟩

/-- Amended C8: the normalizer never raises; a body that parses to a
JSON *object* without a documents list is wrapped with confidence 0.5
(content folded into the tables/text fields); a body that parses to a
non-object JSON value falls through to the payload-shape-error path and
yields the empty-content envelope with confidence 0; a body that fails
to parse yields the envelope carrying the raw content verbatim with
confidence 0.1; a payload whose content cannot be extracted yields the
empty-content envelope with confidence 0. -/
theorem response_normalizer_policy (jsonLoads : List Char → Option Json)
    (apiResponse : Json) :
    (∀ content, extractResponseContent apiResponse = some content →
      (∀ j, jsonLoads (cleanContent content) = some j →
        envelopeMatches j = true →
        parseVisionResponse jsonLoads apiResponse = j) ∧
      (∀ fields, jsonLoads (cleanContent content) = some (Json.obj fields) →
        envelopeMatches (Json.obj fields) = false →
        parseVisionResponse jsonLoads apiResponse =
          canonicalEnvelope ((jsonLookup fields "tables".toList).getD (Json.arr []))
            ((jsonLookup fields "text_content".toList).getD (Json.str content))
            (1 / 2)) ∧
      (∀ j, jsonLoads (cleanContent content) = some j → isJsonObj j = false →
        parseVisionResponse jsonLoads apiResponse =
          canonicalEnvelope (Json.arr [])
            (Json.str "Failed to parse response".toList) 0) ∧
      (jsonLoads (cleanContent content) = none →
        parseVisionResponse jsonLoads apiResponse =
          canonicalEnvelope (Json.arr []) (Json.str content) (1 / 10))) ∧
    (extractResponseContent apiResponse = none →
      parseVisionResponse jsonLoads apiResponse =
        canonicalEnvelope (Json.arr [])
          (Json.str "Failed to parse response".toList) 0) := by
  constructor
  · intro content hcon
    refine ⟨?_, ?_, ?_, ?_⟩
    · intro j hj hm
      simp [parseVisionResponse, hcon,
        parseFromContent_passthrough jsonLoads content j hj hm]
    · intro fields hj hm
      cases hdoc : jsonLookup fields ['d', 'o', 'c', 'u', 'm', 'e', 'n', 't', 's'] with
      | none =>
          simp [parseVisionResponse, hcon, parseFromContent, hj, pyContains,
            pySubscript, hdoc, pyDictGet_obj]
      | some docs =>
          have hlist : isJsonList docs = false := by
            simpa [envelopeMatches, pySubscript, hdoc] using hm
          simp [parseVisionResponse, hcon, parseFromContent, hj, pyContains,
            pySubscript, hdoc, hlist, pyDictGet_obj]
    · intro j hj hobj
      cases j with
      | obj fields => simp [isJsonObj] at hobj
      | null => simp [parseVisionResponse, hcon, parseFromContent, hj, pyContains]
      | bool b => simp [parseVisionResponse, hcon, parseFromContent, hj, pyContains]
      | num q => simp [parseVisionResponse, hcon, parseFromContent, hj, pyContains]
      | str s0 =>
          cases hsub : isSubstring ['d', 'o', 'c', 'u', 'm', 'e', 'n', 't', 's'] s0 with
          | true =>
              simp [parseVisionResponse, hcon, parseFromContent, hj, pyContains,
                hsub, pySubscript, pyDictGet]
          | false =>
              simp [parseVisionResponse, hcon, parseFromContent, hj, pyContains,
                hsub, pySubscript, pyDictGet]
      | arr elems =>
          cases hsub : elems.any (fun e => jsonEqStr e ['d', 'o', 'c', 'u', 'm', 'e', 'n', 't', 's']) with
          | true =>
              simp [parseVisionResponse, hcon, parseFromContent, hj, pyContains,
                hsub, pySubscript, pyDictGet]
          | false =>
              simp [parseVisionResponse, hcon, parseFromContent, hj, pyContains,
                hsub, pySubscript, pyDictGet]
    · intro hnone
      simp [parseVisionResponse, hcon, parseFromContent, hnone]
  · intro hnone
    simp [parseVisionResponse, hnone]

/-- Witness for `response_normalizer_policy`: an unparseable body. -/
theorem response_normalizer_policy_witness :
    parseVisionResponse jsonLoadsFive (respWithContent "junk".toList) =
      canonicalEnvelope (Json.arr []) (Json.str "junk".toList) (1 / 10) :=
  ((response_normalizer_policy jsonLoadsFive
    (respWithContent "junk".toList)).1 "junk".toList rfl).2.2.2 rfl

/-- C9: a documents-envelope JSON body wrapped in a leading ```json
fence and a trailing ``` fence normalizes to exactly the same canonical
envelope as the same body without fencing. -/
theorem fenced_json_parses_identically (jsonLoads : List Char → Option Json)
    (r1 r2 : Json) (s : List Char) (j : Json)
    (h1 : extractResponseContent r1 =
      some ("```json\n".toList ++ s ++ "\n```".toList))
    (h2 : extractResponseContent r2 = some s)
    (hs : pyStartsWith (pyStrip s) ("```".toList) = false)
    (hj : jsonLoads (pyStrip s) = some j)
    (hm : envelopeMatches j = true) :
    parseVisionResponse jsonLoads r1 = parseVisionResponse jsonLoads r2 := by
  have p1 : parseFromContent jsonLoads
      ("```json\n".toList ++ s ++ "\n```".toList) = some j :=
    parseFromContent_passthrough jsonLoads _ j
      (by rw [cleanContent_fence s]; exact hj) hm
  have p2 : parseFromContent jsonLoads s = some j :=
    parseFromContent_passthrough jsonLoads s j
      (by rw [cleanContent_plain s hs]; exact hj) hm
  have he : "```json\n".toList ++ s ++ "\n```".toList =
      '`' :: '`' :: '`' :: 'j' :: 's' :: 'o' :: 'n' :: '\n' ::
        (s ++ ['\n', '`', '`', '`']) := by simp
  rw [he] at p1
  simp [parseVisionResponse, h1, h2, p1, p2]

/-- Witness for `fenced_json_parses_identically`: the body `"x"` mapped
by `jsonLoadsX` to a documents envelope. -/
theorem fenced_json_parses_identically_witness :
    parseVisionResponse jsonLoadsX
        (respWithContent ("```json\n".toList ++ "x".toList ++ "\n```".toList)) =
      parseVisionResponse jsonLoadsX (respWithContent "x".toList) :=
  fenced_json_parses_identically jsonLoadsX
    (respWithContent ("```json\n".toList ++ "x".toList ++ "\n```".toList))
    (respWithContent "x".toList) "x".toList docsEnvX rfl rfl rfl rfl rfl

end UC